import Mathlib

/-!
Shallow embedding of the panoptic-reconstruction inference fragment:
`tools/test_net_single_image.py` (configuration, export driver) and
`lib/layers/reconstruction_loss.py` (robust regression loss).

Machine floats are modelled by rationals; file-system paths by lists of
characters; the global yacs-style configuration by an explicit record that
is passed and returned.
-/

namespace PanRecon

/-! ## Configuration model

`config.MODEL.FRUSTUM3D` fields and `config.OUTPUT_DIR`, the keys the
inference driver reads or writes.  The yacs merge operations
(`merge_from_file`, `merge_from_list`) live outside `src/`; per the spec
their semantics is "later wins": each merge applies a sequence of
key/value assignments in order.
-/

structure Frustum3DConfig where
  IS_LEVEL_64 : Bool
  IS_LEVEL_128 : Bool
  IS_LEVEL_256 : Bool
  FIX : Bool
  GRID_DIMENSIONS : List Nat
  TRUNCATION : ℚ
  ISO_VALUE : ℚ
  deriving Repr, DecidableEq

structure Config where
  OUTPUT_DIR : List Char
  MODEL_FRUSTUM3D : Frustum3DConfig
  deriving Repr, DecidableEq

/-- One key/value assignment, as carried by a config file or by the
trailing `opts` override list. -/
inductive ConfigAssignment where
  | outputDir : List Char → ConfigAssignment
  | isLevel64 : Bool → ConfigAssignment
  | isLevel128 : Bool → ConfigAssignment
  | isLevel256 : Bool → ConfigAssignment
  | fix : Bool → ConfigAssignment
  | gridDimensions : List Nat → ConfigAssignment
  | truncation : ℚ → ConfigAssignment
  | isoValue : ℚ → ConfigAssignment
  deriving Repr, DecidableEq

def applyAssignment (c : Config) (a : ConfigAssignment) : Config :=
  match a with
  | .outputDir s => { c with OUTPUT_DIR := s }
  | .isLevel64 b => { c with MODEL_FRUSTUM3D := { c.MODEL_FRUSTUM3D with IS_LEVEL_64 := b } }
  | .isLevel128 b => { c with MODEL_FRUSTUM3D := { c.MODEL_FRUSTUM3D with IS_LEVEL_128 := b } }
  | .isLevel256 b => { c with MODEL_FRUSTUM3D := { c.MODEL_FRUSTUM3D with IS_LEVEL_256 := b } }
  | .fix b => { c with MODEL_FRUSTUM3D := { c.MODEL_FRUSTUM3D with FIX := b } }
  | .gridDimensions d => { c with MODEL_FRUSTUM3D := { c.MODEL_FRUSTUM3D with GRID_DIMENSIONS := d } }
  | .truncation q => { c with MODEL_FRUSTUM3D := { c.MODEL_FRUSTUM3D with TRUNCATION := q } }
  | .isoValue q => { c with MODEL_FRUSTUM3D := { c.MODEL_FRUSTUM3D with ISO_VALUE := q } }

/-- Modelled from the spec: yacs-style merge applied by `config.merge_from_file`
and `config.merge_from_list` (the config library is outside `src/`); later
assignments win. -/
def mergeAssignments (c : Config) (l : List ConfigAssignment) : Config :=
  l.foldl applyAssignment c

/-- `configure_inference` from `tools/test_net_single_image.py`:
sets `OUTPUT_DIR` from the CLI argument, merges the config file, merges the
trailing override list, then forces the four inference flags. -/
def configure_inference (c : Config) (output : List Char)
    (fileAssignments optsAssignments : List ConfigAssignment) : Config :=
  let c1 := { c with OUTPUT_DIR := output }
  let c2 := mergeAssignments c1 fileAssignments
  let c3 := mergeAssignments c2 optsAssignments
  { c3 with MODEL_FRUSTUM3D :=
      { c3.MODEL_FRUSTUM3D with
          IS_LEVEL_64 := false
          IS_LEVEL_128 := false
          IS_LEVEL_256 := false
          FIX := true } }

/-- The last `OUTPUT_DIR` value assigned by a list of merge assignments,
if any. -/
def lastOutputDirAssignment : List ConfigAssignment → Option (List Char)
  | [] => none
  | .outputDir s :: l => some ((lastOutputDirAssignment l).getD s)
  | .isLevel64 _ :: l => lastOutputDirAssignment l
  | .isLevel128 _ :: l => lastOutputDirAssignment l
  | .isLevel256 _ :: l => lastOutputDirAssignment l
  | .fix _ :: l => lastOutputDirAssignment l
  | .gridDimensions _ :: l => lastOutputDirAssignment l
  | .truncation _ :: l => lastOutputDirAssignment l
  | .isoValue _ :: l => lastOutputDirAssignment l


/-- A concrete sample base configuration, used to instantiate universally
quantified theorems at concrete inputs. -/
def sampleConfig : Config :=
  { OUTPUT_DIR := [],
    MODEL_FRUSTUM3D :=
      { IS_LEVEL_64 := true
        IS_LEVEL_128 := true
        IS_LEVEL_256 := true
        FIX := false
        GRID_DIMENSIONS := [256, 256, 256]
        TRUNCATION := 3
        ISO_VALUE := 1 } }

/-! ## Robust regression loss

Embedding of `lib/layers/reconstruction_loss.py`.  Tensors of equal shape
become a list of (input, target) element pairs; float arithmetic becomes
rational arithmetic.  The Python function contains no `raise` and performs
no validation of `beta`; the `Except` result type records that it always
returns normally.
-/

/-- Error kind named by the spec for invalid arguments. -/
inductive LossError where
  | invalidArgument
  deriving Repr, DecidableEq

/-- Elementwise body of `reconstruction_loss`:
`n = |input - target|; where(n < beta, 0.5 * n ** 2 / beta, n - 0.5 * beta)`. -/
def lossElem (beta x t : ℚ) : ℚ :=
  let n := |x - t|
  if n < beta then 0.5 * n ^ 2 / beta else n - 0.5 * beta

/-- The reduction step: `loss.mean()` when `size_average` else `loss.sum()`. -/
def lossReduce (size_average : Bool) (l : List ℚ) : ℚ :=
  if size_average then l.sum / l.length else l.sum

/-- The value computed by `reconstruction_loss` on paired elements. -/
def lossValue (pairs : List (ℚ × ℚ)) (beta : ℚ) (size_average : Bool) : ℚ :=
  lossReduce size_average (pairs.map fun p => lossElem beta p.1 p.2)

/-- `reconstruction_loss` from `lib/layers/reconstruction_loss.py`.  The
source has no failure path (no argument validation), so the result is
always `Except.ok`. -/
def reconstruction_loss (pairs : List (ℚ × ℚ)) (beta : ℚ)
    (size_average : Bool) : Except LossError ℚ :=
  Except.ok (lossValue pairs beta size_average)

/-! ## Paths and the export driver

Paths are lists of characters.  `posixJoin` models Python's
`pathlib.PurePosixPath` division operator for the cases exercised by
`visualize_results`: a second operand that begins with `/` is absolute and
discards the base, otherwise it is appended after a separator.
-/

def posixJoin (base seg : List Char) : List Char :=
  match seg with
  | [] => base
  | c :: _ => if c = '/' then seg else base ++ '/' :: seg

/-- The destination passed to `depth_map.to_pointcloud`:
`output_path / "/depth_prediction.ply"`. -/
def depth_prediction_path (outDir : List Char) : List Char :=
  posixJoin outDir ("/depth_prediction.ply".toList)

/-! ## Sparse tensors and dense materialization -/

/-- A sparse volumetric tensor: active (spatial coordinate, feature) pairs.
The leading batch column of the source coordinates is fixed at 0 for the
single-image batch and dropped here. -/
structure SparseTensorQ where
  entries : List ((Nat × Nat × Nat) × ℚ)
  deriving Repr, DecidableEq

/-- Modelled from the spec: the `dense` method of the external sparse-tensor
library (not under `src/`).  Given grid dimensions, a minimum-coordinate
origin and an optional `default_value`, it materializes a dense grid in
which a voxel holds the feature of the sparse entry whose coordinate maps
there, and unseen voxels hold the fill value; when `default_value` is
omitted the library fills with zero. -/
def dense (st : SparseTensorQ) (_dims : List Nat) (minCoordinate : Int × Int × Int)
    (defaultValue : Option ℚ) : Nat × Nat × Nat → ℚ :=
  fun c =>
    match st.entries.find? (fun e =>
        ((e.1.1 : Int) - minCoordinate.1 == (c.1 : Int)) &&
        ((e.1.2.1 : Int) - minCoordinate.2.1 == (c.2.1 : Int)) &&
        ((e.1.2.2 : Int) - minCoordinate.2.2 == (c.2.2 : Int))) with
    | some e => e.2
    | none => defaultValue.getD 0

/-- The three sparse outputs consumed by `visualize_results`. -/
structure FrustumResults where
  geometry : SparseTensorQ
  panoptic_semantics : SparseTensorQ
  panoptic_instances : SparseTensorQ
  deriving Repr, DecidableEq

/-- An empty results bundle: all three sparse tensors have no entries. -/
def emptyFrustumResults : FrustumResults := ⟨⟨[]⟩, ⟨[]⟩, ⟨[]⟩⟩

/-- `dense_dimensions = torch.Size([1, 1] + config.MODEL.FRUSTUM3D.GRID_DIMENSIONS)`. -/
def dense_dimensions (c : Config) : List Nat :=
  [1, 1] ++ c.MODEL_FRUSTUM3D.GRID_DIMENSIONS

/-- `min_coordinates = torch.IntTensor([0, 0, 0])`. -/
def min_coordinates : Int × Int × Int := (0, 0, 0)

/-- The arguments `visualize_results` hands to one `dense` call. -/
structure DenseCallArgs where
  dims : List Nat
  minCoordinate : Int × Int × Int
  defaultValue : Option ℚ
  deriving Repr, DecidableEq

/-- `geometry.dense(dense_dimensions, min_coordinates, default_value=truncation)`. -/
def geometryDenseArgs (c : Config) : DenseCallArgs :=
  ⟨dense_dimensions c, min_coordinates, some c.MODEL_FRUSTUM3D.TRUNCATION⟩

/-- `results["panoptic"]["panoptic_semantics"].dense(dense_dimensions, min_coordinates)`
— no `default_value` argument. -/
def semanticsDenseArgs (c : Config) : DenseCallArgs :=
  ⟨dense_dimensions c, min_coordinates, none⟩

/-- `results["panoptic"]["panoptic_instances"].dense(dense_dimensions, min_coordinates)`
— no `default_value` argument. -/
def instancesDenseArgs (c : Config) : DenseCallArgs :=
  ⟨dense_dimensions c, min_coordinates, none⟩

def runDenseCall (st : SparseTensorQ) (a : DenseCallArgs) : Nat × Nat × Nat → ℚ :=
  dense st a.dims a.minCoordinate a.defaultValue

/-- The dense geometry grid (`surface` in the source). -/
def surfaceGrid (c : Config) (r : FrustumResults) : Nat × Nat × Nat → ℚ :=
  runDenseCall r.geometry (geometryDenseArgs c)

/-- The dense panoptic-semantics grid. -/
def semanticsGrid (c : Config) (r : FrustumResults) : Nat × Nat × Nat → ℚ :=
  runDenseCall r.panoptic_semantics (semanticsDenseArgs c)

/-- The dense panoptic-instances grid. -/
def instancesGrid (c : Config) (r : FrustumResults) : Nat × Nat × Nat → ℚ :=
  runDenseCall r.panoptic_instances (instancesDenseArgs c)

/-! ## Surface extraction -/

/-- All spatial coordinates of an `X × Y × Z` grid in row-major order, the
order `torch.nonzero` enumerates. -/
def allCoords (dims : Nat × Nat × Nat) : List (Nat × Nat × Nat) :=
  ((List.range dims.1).map fun x =>
    ((List.range dims.2.1).map fun y =>
      (List.range dims.2.2).map fun z => (x, y, z)).flatten).flatten

/-- `points = (surface < iso_value).squeeze().nonzero()`: the coordinates
whose geometry value is strictly below the iso-value. -/
def points_geometry (dims : Nat × Nat × Nat) (surface : Nat × Nat × Nat → ℚ)
    (iso_value : ℚ) : List (Nat × Nat × Nat) :=
  (allCoords dims).filter fun c => decide (surface c < iso_value)

/-! ## File-system effect of `visualize_results`

The writers (`to_pointcloud`, `write_depth`, `write_detection_image`,
`vis.write_pointcloud`, `vis.write_semantic_pointcloud`,
`vis.write_distance_field`) live in `lib.visualize` outside `src/`.
Modelled from the spec: on success each writer writes its named output
file and the file is non-empty (at least one byte); `contentSize` supplies
the otherwise unknown extra bytes per path.  The sequence and destinations
of the calls below are those of `visualize_results` in
`tools/test_net_single_image.py`.
-/

structure FileSystem where
  dirs : List (List Char)
  files : List (List Char × Nat)
  deriving Repr, DecidableEq

/-- `output_path.mkdir(exist_ok=True, parents=True)`. -/
def mkdirAll (fs : FileSystem) (path : List Char) : FileSystem :=
  { fs with dirs := fs.dirs ++ [path] }

/-- Modelled from the spec: one external writer call; it writes the file at
`path`, non-empty on success. -/
def writeOutput (contentSize : List Char → Nat) (fs : FileSystem)
    (path : List Char) : FileSystem :=
  { fs with files := fs.files ++ [(path, contentSize path + 1)] }

/-- The file-system effect of `visualize_results`, starting from an empty
file system: directory creation followed by the eleven writer calls in
source order (`surface_pcd.ply` is written twice). -/
def visualize_results_fs (contentSize : List Char → Nat)
    (outDir : List Char) : FileSystem :=
  let fs0 : FileSystem := ⟨[], []⟩
  let fs1 := mkdirAll fs0 outDir
  let w := writeOutput contentSize
  let fs2 := w fs1 (posixJoin outDir ("/depth_prediction.ply".toList))
  let fs3 := w fs2 (posixJoin outDir ("depth_map.png".toList))
  let fs4 := w fs3 (posixJoin outDir ("detection.png".toList))
  let fs5 := w fs4 (posixJoin outDir ("projection.ply".toList))
  let fs6 := w fs5 (posixJoin outDir ("sparse_coordinates.ply".toList))
  let fs7 := w fs6 (posixJoin outDir ("points_geometry.ply".toList))
  let fs8 := w fs7 (posixJoin outDir ("surface_pcd.ply".toList))
  let fs9 := w fs8 (posixJoin outDir ("surface_pcd.ply".toList))
  let fs10 := w fs9 (posixJoin outDir ("mesh_geometry.ply".toList))
  let fs11 := w fs10 (posixJoin outDir ("mesh_semantics.ply".toList))
  w fs11 (posixJoin outDir ("mesh_instances.ply".toList))

/-- The nine named output files of the spec's end-to-end scenario. -/
def nineOutputNames : List (List Char) :=
  [ "depth_map.png".toList
  , "detection.png".toList
  , "projection.ply".toList
  , "sparse_coordinates.ply".toList
  , "points_geometry.ply".toList
  , "surface_pcd.ply".toList
  , "mesh_geometry.ply".toList
  , "mesh_semantics.ply".toList
  , "mesh_instances.ply".toList ]

/-! ## Intrinsic rescaling -/

/-- A pinhole intrinsic matrix, reduced to its focal-length and
principal-point entries (the entries the claim speaks about). -/
structure Intrinsic where
  fx : ℚ
  fy : ℚ
  cx : ℚ
  cy : ℚ
  deriving Repr, DecidableEq

/-- Modelled from the spec: `adjust_intrinsic` of `lib/utils/intrinsics`
(not under `src/`) rescales a reference intrinsic matrix from one image
resolution to another via proportional scaling of focal length and
principal point. -/
def adjust_intrinsic (k : Intrinsic) (oldSize newSize : Nat × Nat) : Intrinsic :=
  { fx := k.fx * (newSize.1 : ℚ) / (oldSize.1 : ℚ)
    fy := k.fy * (newSize.2 : ℚ) / (oldSize.2 : ℚ)
    cx := k.cx * (newSize.1 : ℚ) / (oldSize.1 : ℚ)
    cy := k.cy * (newSize.2 : ℚ) / (oldSize.2 : ℚ) }

/-- `color_image_size = (320, 240)` from `main`. -/
def color_image_size : Nat × Nat := (320, 240)

/-- `depth_image_size = (160, 120)` from `main`. -/
def depth_image_size : Nat × Nat := (160, 120)

/-! ## Theorems -/

/-- C1: for every base configuration, CLI output argument, config file and
override list, `configure_inference` finalizes the configuration with
`MODEL.FRUSTUM3D.IS_LEVEL_64 = IS_LEVEL_128 = IS_LEVEL_256 = False` and
`MODEL.FRUSTUM3D.FIX = True`, because the hardcoded inference overrides are
applied after the merges. -/
theorem configure_inference_forces_flags (c : Config) (output : List Char)
    (fileAssignments optsAssignments : List ConfigAssignment) :
    (configure_inference c output fileAssignments optsAssignments).MODEL_FRUSTUM3D.IS_LEVEL_64 = false ∧
    (configure_inference c output fileAssignments optsAssignments).MODEL_FRUSTUM3D.IS_LEVEL_128 = false ∧
    (configure_inference c output fileAssignments optsAssignments).MODEL_FRUSTUM3D.IS_LEVEL_256 = false ∧
    (configure_inference c output fileAssignments optsAssignments).MODEL_FRUSTUM3D.FIX = true :=
  ⟨rfl, rfl, rfl, rfl⟩

/-- C2: for every β > 0, the quadratic and linear branches of
`reconstruction_loss` agree at the boundary `|input - target| = β`:
`0.5 * β ^ 2 / β` and `β - 0.5 * β` both equal `0.5 * β`, and the
elementwise loss takes that common value there. -/
theorem reconstruction_loss_branch_boundary (beta x t : ℚ) (hb : 0 < beta)
    (h : |x - t| = beta) :
    0.5 * beta ^ 2 / beta = 0.5 * beta ∧
    beta - 0.5 * beta = 0.5 * beta ∧
    lossElem beta x t = 0.5 * beta := by
  have hb0 : beta ≠ 0 := ne_of_gt hb
  refine ⟨by field_simp; ring, by ring, ?_⟩
  simp only [lossElem, h]
  rw [if_neg (lt_irrefl beta)]
  ring

/-- Witness for C2 at β = 1, input = 1, target = 0. -/
theorem reconstruction_loss_branch_boundary_witness :
    (0:ℚ) < 1 ∧ |(1:ℚ) - 0| = 1 ∧
    (0.5 * (1:ℚ) ^ 2 / 1 = 0.5 * 1 ∧ (1:ℚ) - 0.5 * 1 = 0.5 * 1 ∧
      lossElem 1 1 0 = 0.5 * 1) :=
  ⟨by norm_num, by norm_num,
    reconstruction_loss_branch_boundary 1 1 0 (by norm_num) (by norm_num)⟩

/-- C9: rescaling an intrinsic matrix from the color resolution 320×240 to
the depth resolution 160×120 exactly halves the focal-length and
principal-point entries. -/
theorem adjust_intrinsic_halves (k : Intrinsic) :
    adjust_intrinsic k color_image_size depth_image_size =
      ⟨k.fx / 2, k.fy / 2, k.cx / 2, k.cy / 2⟩ := by
  simp only [adjust_intrinsic, color_image_size, depth_image_size,
    Intrinsic.mk.injEq]
  norm_num
  refine ⟨by ring, by ring, by ring, by ring⟩

/-- Merging a list of assignments leaves `OUTPUT_DIR` at the last assigned
value, falling back to the incoming configuration's value. -/
theorem mergeAssignments_OUTPUT_DIR (l : List ConfigAssignment) (c : Config) :
    (mergeAssignments c l).OUTPUT_DIR =
      (lastOutputDirAssignment l).getD c.OUTPUT_DIR := by
  induction l generalizing c with
  | nil => rfl
  | cons a l ih =>
    cases a <;>
      simp only [mergeAssignments, List.foldl_cons, lastOutputDirAssignment] at ih ⊢ <;>
      rw [ih] <;>
      cases h : lastOutputDirAssignment l <;>
      simp [applyAssignment, h]

/-- C10: `configure_inference` writes the CLI output argument into
`OUTPUT_DIR` before the merges, so the finalized `OUTPUT_DIR` is the last
value assigned by the config file or the override list when either sets the
key, and the CLI argument only otherwise. -/
theorem configure_inference_OUTPUT_DIR (c : Config) (output : List Char)
    (fileAssignments optsAssignments : List ConfigAssignment) :
    (configure_inference c output fileAssignments optsAssignments).OUTPUT_DIR =
      (lastOutputDirAssignment optsAssignments).getD
        ((lastOutputDirAssignment fileAssignments).getD output) := by
  show (mergeAssignments (mergeAssignments { c with OUTPUT_DIR := output }
      fileAssignments) optsAssignments).OUTPUT_DIR = _
  rw [mergeAssignments_OUTPUT_DIR, mergeAssignments_OUTPUT_DIR]

/-- C4: the points written to `points_geometry.ply` are exactly the grid
coordinates whose geometry value is strictly below the iso-value; a voxel
whose value equals the iso-value is excluded. -/
theorem points_geometry_iso_strict (dims : Nat × Nat × Nat)
    (surface : Nat × Nat × Nat → ℚ) (iso_value : ℚ) (c : Nat × Nat × Nat) :
    (c ∈ points_geometry dims surface iso_value ↔
      c ∈ allCoords dims ∧ surface c < iso_value) ∧
    (surface c = iso_value → c ∉ points_geometry dims surface iso_value) := by
  constructor
  · simp [points_geometry, List.mem_filter]
  · intro h hmem
    have hlt : surface c < iso_value := by
      have := (List.mem_filter.1 hmem).2
      simpa using this
    rw [h] at hlt
    exact lt_irrefl _ hlt

/-- Witness for C4 on a 2×1×1 grid with iso-value 2: the voxel with value 0
is selected, the voxel with value exactly 2 is excluded. -/
theorem points_geometry_iso_strict_witness :
    ((1, 0, 0) : Nat × Nat × Nat) ∉
      points_geometry (2, 1, 1)
        (fun c => if c = ((0, 0, 0) : Nat × Nat × Nat) then (0 : ℚ) else 2) 2 ∧
    ((0, 0, 0) : Nat × Nat × Nat) ∈
      points_geometry (2, 1, 1)
        (fun c => if c = ((0, 0, 0) : Nat × Nat × Nat) then (0 : ℚ) else 2) 2 :=
  ⟨(points_geometry_iso_strict (2, 1, 1) _ 2 (1, 0, 0)).2 (by norm_num),
   ((points_geometry_iso_strict (2, 1, 1) _ 2 (0, 0, 0)).1).mpr
     ⟨by simp [allCoords], by norm_num⟩⟩

/-- Counterexample to C3: with a configured truncation of 3, an empty
panoptic-semantics sparse tensor materializes to a grid holding 0 at every
voxel, not the configured truncation value, because the semantics `dense`
call passes no `default_value`. -/
theorem semantics_dense_not_truncation_filled :
    sampleConfig.MODEL_FRUSTUM3D.TRUNCATION = 3 ∧
    (semanticsDenseArgs sampleConfig).defaultValue = none ∧
    semanticsGrid sampleConfig emptyFrustumResults (0, 0, 0) = 0 ∧
    (0 : ℚ) ≠ 3 :=
  ⟨rfl, rfl, rfl, by norm_num⟩

/-- C3 (amended): all three dense calls use grid dimensions
`(1,1) ++ GRID_DIMENSIONS` and minimum coordinate `(0,0,0)`, but only the
geometry call passes the configured truncation as the fill; the semantics
and instances calls omit `default_value` and fall back to the zero fill.
Materializing sparse tensors with no entries yields a grid filled with the
truncation value for geometry and with 0 for semantics and instances. -/
theorem dense_materialization_calls (c : Config) (r : FrustumResults)
    (x : Nat × Nat × Nat)
    (hg : r.geometry.entries = [])
    (hs : r.panoptic_semantics.entries = [])
    (hi : r.panoptic_instances.entries = []) :
    geometryDenseArgs c =
      ⟨[1, 1] ++ c.MODEL_FRUSTUM3D.GRID_DIMENSIONS, (0, 0, 0),
        some c.MODEL_FRUSTUM3D.TRUNCATION⟩ ∧
    semanticsDenseArgs c =
      ⟨[1, 1] ++ c.MODEL_FRUSTUM3D.GRID_DIMENSIONS, (0, 0, 0), none⟩ ∧
    instancesDenseArgs c =
      ⟨[1, 1] ++ c.MODEL_FRUSTUM3D.GRID_DIMENSIONS, (0, 0, 0), none⟩ ∧
    surfaceGrid c r x = c.MODEL_FRUSTUM3D.TRUNCATION ∧
    semanticsGrid c r x = 0 ∧
    instancesGrid c r x = 0 := by
  refine ⟨rfl, rfl, rfl, ?_, ?_, ?_⟩ <;>
    simp [surfaceGrid, semanticsGrid, instancesGrid, runDenseCall, dense,
      geometryDenseArgs, semanticsDenseArgs, instancesDenseArgs, hg, hs, hi]

/-- Witness for the amended C3 at the sample configuration and the empty
results bundle. -/
theorem dense_materialization_calls_witness :
    emptyFrustumResults.geometry.entries = [] ∧
    emptyFrustumResults.panoptic_semantics.entries = [] ∧
    emptyFrustumResults.panoptic_instances.entries = [] ∧
    (geometryDenseArgs sampleConfig =
      ⟨[1, 1] ++ sampleConfig.MODEL_FRUSTUM3D.GRID_DIMENSIONS, (0, 0, 0),
        some sampleConfig.MODEL_FRUSTUM3D.TRUNCATION⟩ ∧
    semanticsDenseArgs sampleConfig =
      ⟨[1, 1] ++ sampleConfig.MODEL_FRUSTUM3D.GRID_DIMENSIONS, (0, 0, 0), none⟩ ∧
    instancesDenseArgs sampleConfig =
      ⟨[1, 1] ++ sampleConfig.MODEL_FRUSTUM3D.GRID_DIMENSIONS, (0, 0, 0), none⟩ ∧
    surfaceGrid sampleConfig emptyFrustumResults (0, 0, 0) =
      sampleConfig.MODEL_FRUSTUM3D.TRUNCATION ∧
    semanticsGrid sampleConfig emptyFrustumResults (0, 0, 0) = 0 ∧
    instancesGrid sampleConfig emptyFrustumResults (0, 0, 0) = 0) :=
  ⟨rfl, rfl, rfl,
    dense_materialization_calls sampleConfig emptyFrustumResults (0, 0, 0)
      rfl rfl rfl⟩

/-- Counterexample to C5: at β = 0 ≤ 0, `reconstruction_loss` does not
fail; it returns the value 1 on the pair (1, 0). -/
theorem reconstruction_loss_beta_zero_returns :
    ((0 : ℚ) ≤ 0) ∧ reconstruction_loss [((1 : ℚ), 0)] 0 true = Except.ok 1 := by
  refine ⟨le_refl 0, ?_⟩
  norm_num [reconstruction_loss, lossValue, lossReduce, lossElem]

/-- C5 (amended): for every β ≤ 0, `reconstruction_loss` performs no
validation and returns a value: the condition `|diff| < β` is false for
every element, so every element takes the linear branch `|diff| - 0.5·β`. -/
theorem reconstruction_loss_nonpositive_beta_linear (pairs : List (ℚ × ℚ))
    (beta : ℚ) (size_average : Bool) (hb : beta ≤ 0) :
    reconstruction_loss pairs beta size_average =
      Except.ok (lossReduce size_average
        (pairs.map fun p => |p.1 - p.2| - 0.5 * beta)) := by
  unfold reconstruction_loss lossValue
  congr 2
  apply List.map_congr_left
  intro p _
  unfold lossElem
  rw [if_neg (not_lt.mpr (le_trans hb (abs_nonneg _)))]

/-- Witness for the amended C5 at β = -1 under sum reduction. -/
theorem reconstruction_loss_nonpositive_beta_linear_witness :
    ((-1 : ℚ) ≤ 0) ∧
    reconstruction_loss [((1 : ℚ), 0)] (-1) false =
      Except.ok (lossReduce false
        ([((1 : ℚ), 0)].map fun p => |p.1 - p.2| - 0.5 * (-1))) :=
  ⟨by norm_num,
    reconstruction_loss_nonpositive_beta_linear [((1 : ℚ), 0)] (-1) false
      (by norm_num)⟩

/-- For β > 0 every elementwise loss value is non-negative. -/
theorem lossElem_nonneg (beta x t : ℚ) (hb : 0 < beta) :
    0 ≤ lossElem beta x t := by
  simp only [lossElem]
  split_ifs with hc
  · positivity
  · have hge : beta ≤ |x - t| := not_lt.1 hc
    linarith

/-- For β > 0 the elementwise loss vanishes exactly on equal elements. -/
theorem lossElem_eq_zero_iff (beta x t : ℚ) (hb : 0 < beta) :
    lossElem beta x t = 0 ↔ x = t := by
  have hb0 : beta ≠ 0 := ne_of_gt hb
  simp only [lossElem]
  split_ifs with hc
  · constructor
    · intro h
      rcases div_eq_zero_iff.1 h with h1 | h1
      · rcases mul_eq_zero.1 h1 with h3 | h3
        · norm_num at h3
        · have h4 : |x - t| = 0 :=
            (pow_eq_zero_iff (by norm_num : (2 : ℕ) ≠ 0)).1 h3
          exact sub_eq_zero.1 (abs_eq_zero.1 h4)
      · exact absurd h1 hb0
    · intro h
      subst h
      simp
  · constructor
    · intro h
      have hge : beta ≤ |x - t| := not_lt.1 hc
      linarith
    · intro h
      subst h
      simp only [sub_self, abs_zero] at hc
      exact absurd hb hc

/-- C7: for every list of element pairs and β > 0, `reconstruction_loss`
returns, under both reductions, a non-negative value that is zero exactly
when every prediction element equals its target element. -/
theorem reconstruction_loss_nonneg_zero_iff (pairs : List (ℚ × ℚ)) (beta : ℚ)
    (hb : 0 < beta) :
    reconstruction_loss pairs beta true = Except.ok (lossValue pairs beta true) ∧
    reconstruction_loss pairs beta false = Except.ok (lossValue pairs beta false) ∧
    0 ≤ lossValue pairs beta true ∧
    0 ≤ lossValue pairs beta false ∧
    (lossValue pairs beta true = 0 ↔ pairs.all (fun p => p.1 == p.2) = true) ∧
    (lossValue pairs beta false = 0 ↔ pairs.all (fun p => p.1 == p.2) = true) := by
  have h0 : ∀ y ∈ pairs.map (fun p => lossElem beta p.1 p.2), 0 ≤ y := by
    intro y hy
    obtain ⟨p, _, rfl⟩ := List.mem_map.1 hy
    exact lossElem_nonneg _ _ _ hb
  have hsum : 0 ≤ (pairs.map (fun p => lossElem beta p.1 p.2)).sum :=
    List.sum_nonneg h0
  have hall : pairs.all (fun p => p.1 == p.2) = true ↔ ∀ p ∈ pairs, p.1 = p.2 := by
    simp [List.all_eq_true]
  have hzero : (pairs.map (fun p => lossElem beta p.1 p.2)).sum = 0 ↔
      ∀ p ∈ pairs, p.1 = p.2 := by
    constructor
    · intro h p hp
      have hmem : lossElem beta p.1 p.2 ∈
          pairs.map (fun p => lossElem beta p.1 p.2) :=
        List.mem_map.2 ⟨p, hp, rfl⟩
      exact (lossElem_eq_zero_iff beta p.1 p.2 hb).1
        (List.all_zero_of_le_zero_le_of_sum_eq_zero h0 h hmem)
    · intro h
      apply List.sum_eq_zero
      intro y hy
      obtain ⟨p, hp, rfl⟩ := List.mem_map.1 hy
      exact (lossElem_eq_zero_iff beta p.1 p.2 hb).2 (h p hp)
  refine ⟨rfl, rfl, ?_, ?_, ?_, ?_⟩
  · simp only [lossValue, lossReduce, if_true]
    exact div_nonneg hsum (Nat.cast_nonneg _)
  · simpa [lossValue, lossReduce] using hsum
  · simp only [lossValue, lossReduce, if_true]
    rw [hall]
    constructor
    · intro h
      rcases div_eq_zero_iff.1 h with h1 | h1
      · exact hzero.1 h1
      · have hlen : pairs.map (fun p => lossElem beta p.1 p.2) = [] := by
          have := Nat.cast_eq_zero.1 h1
          exact List.eq_nil_of_length_eq_zero this
        have : pairs = [] := List.map_eq_nil_iff.1 hlen
        subst this
        intro p hp
        exact absurd hp (List.not_mem_nil p)
    · intro h
      rw [hzero.2 h]
      exact zero_div _
  · simp only [lossValue, lossReduce, if_false, Bool.false_eq_true]
    rw [hall]
    exact hzero

/-- Witness for C7 at β = 1 on the pairs [(2, 2), (5, 5)]. -/
theorem reconstruction_loss_nonneg_zero_iff_witness :
    ((0 : ℚ) < 1) ∧
    (reconstruction_loss [((2 : ℚ), 2), (5, 5)] 1 true =
        Except.ok (lossValue [((2 : ℚ), 2), (5, 5)] 1 true) ∧
      reconstruction_loss [((2 : ℚ), 2), (5, 5)] 1 false =
        Except.ok (lossValue [((2 : ℚ), 2), (5, 5)] 1 false) ∧
      0 ≤ lossValue [((2 : ℚ), 2), (5, 5)] 1 true ∧
      0 ≤ lossValue [((2 : ℚ), 2), (5, 5)] 1 false ∧
      (lossValue [((2 : ℚ), 2), (5, 5)] 1 true = 0 ↔
        ([((2 : ℚ), 2), (5, 5)].all (fun p => p.1 == p.2)) = true) ∧
      (lossValue [((2 : ℚ), 2), (5, 5)] 1 false = 0 ↔
        ([((2 : ℚ), 2), (5, 5)].all (fun p => p.1 == p.2)) = true)) :=
  ⟨by norm_num,
    reconstruction_loss_nonneg_zero_iff [((2 : ℚ), 2), (5, 5)] 1 (by norm_num)⟩

/-- Joining a base path with a non-empty segment that does not begin with
the separator appends it after a separator. -/
theorem posixJoin_eq_append (base seg : List Char) (h2 : seg ≠ [])
    (h : seg.head? ≠ some '/') : posixJoin base seg = base ++ '/' :: seg := by
  cases seg with
  | nil => exact absurd rfl h2
  | cons c cs =>
    simp only [posixJoin]
    rw [if_neg]
    intro hc
    exact h (by simp [hc])

/-- C6: for every non-empty, non-absolute output directory, joining it with
the segment "/depth_prediction.ply" (which begins with a path separator)
yields the filesystem-root path /depth_prediction.ply, which is not a path
under the output directory. -/
theorem depth_prediction_path_at_root (outDir : List Char)
    (h0 : outDir ≠ []) (h1 : outDir.head? ≠ some '/') :
    depth_prediction_path outDir = "/depth_prediction.ply".toList ∧
    ¬ (outDir ++ ['/']) <+: depth_prediction_path outDir := by
  have hs : "/depth_prediction.ply".toList =
      '/' :: "depth_prediction.ply".toList := by decide
  have h3 : depth_prediction_path outDir =
      '/' :: "depth_prediction.ply".toList := by
    rw [depth_prediction_path, hs]
    simp [posixJoin]
  refine ⟨by rw [h3, hs], ?_⟩
  intro hpre
  rw [h3] at hpre
  rcases outDir with _ | ⟨c, cs⟩
  · exact h0 rfl
  · obtain ⟨t, ht⟩ := hpre
    rw [List.cons_append, List.cons_append] at ht
    injection ht with h4 _
    rw [List.head?_cons, h4] at h1
    exact h1 rfl

/-- Witness for C6 at the CLI default output directory. -/
theorem depth_prediction_path_at_root_witness :
    ("output/sample_0007/".toList ≠ ([] : List Char)) ∧
    ("output/sample_0007/".toList.head? ≠ some '/') ∧
    (depth_prediction_path ("output/sample_0007/".toList) =
        "/depth_prediction.ply".toList ∧
      ¬ ("output/sample_0007/".toList ++ ['/']) <+:
        depth_prediction_path ("output/sample_0007/".toList)) :=
  ⟨by decide, by decide,
    depth_prediction_path_at_root ("output/sample_0007/".toList)
      (by decide) (by decide)⟩

/-- C8: the export driver creates the output directory (with parents) and
writes the nine named output files under the output directory, each
non-empty; the depth point cloud additionally goes to the joined path that
C6 shows resolves to the filesystem root. -/
theorem visualize_results_fs_nine_outputs (outDir : List Char)
    (contentSize : List Char → Nat) :
    (visualize_results_fs contentSize outDir).dirs = [outDir] ∧
    ((visualize_results_fs contentSize outDir).files.map Prod.fst =
      depth_prediction_path outDir ::
        [ outDir ++ '/' :: "depth_map.png".toList
        , outDir ++ '/' :: "detection.png".toList
        , outDir ++ '/' :: "projection.ply".toList
        , outDir ++ '/' :: "sparse_coordinates.ply".toList
        , outDir ++ '/' :: "points_geometry.ply".toList
        , outDir ++ '/' :: "surface_pcd.ply".toList
        , outDir ++ '/' :: "surface_pcd.ply".toList
        , outDir ++ '/' :: "mesh_geometry.ply".toList
        , outDir ++ '/' :: "mesh_semantics.ply".toList
        , outDir ++ '/' :: "mesh_instances.ply".toList ]) ∧
    (nineOutputNames.all (fun n =>
      ((visualize_results_fs contentSize outDir).files.map Prod.fst).contains
        (outDir ++ '/' :: n)) = true) ∧
    ((visualize_results_fs contentSize outDir).files.all
      (fun f => decide (0 < f.2)) = true) := by
  refine ⟨rfl, ?_, ?_, ?_⟩
  · simp +decide [visualize_results_fs, mkdirAll, writeOutput,
      depth_prediction_path, posixJoin]
  · simp +decide [visualize_results_fs, mkdirAll, writeOutput,
      nineOutputNames, posixJoin, List.contains]
  · simp [visualize_results_fs, mkdirAll, writeOutput]

end PanRecon
